import Mathlib

/-
Verification of the NSSPORTS development-environment supervisor scripts.

The development embeds the two supervisor variants of the repository,
src/nssports/start.py and src/scripts/start.py, together with the empty-file
cleaner src/scripts/clean.py, as executable Lean functions.  Time is a
discrete Nat counted in seconds; every HTTP request is assumed to take at
least one time unit.  The behaviour of the environment (HTTP responses,
child-process exits, OS errors raised by library calls) is supplied through
explicit oracle parameters, so each function below is a deterministic image
of one control path of the Python source.
-/

-- ───────────────────────── Health probing (wait_for_server) ─────────────────────────

/-- Outcome of one HTTP GET against the root URL, as classified by the source:
an HTTP response with a status code, a connection-refused error, or a read
timeout.  Any other exception propagates out of the Python functions and is
not part of the retry loop. -/
inductive RootOutcome where
  | status (code : Nat)
  | connRefused
  | readTimeout
deriving DecidableEq

/-- Outcome of one HTTP GET against the dedicated health path in
scripts/start.py: a response with a status code, or any RequestException,
which the source catches and turns into a fallback to the root check. -/
inductive HealthOutcome where
  | status (code : Nat)
  | exn
deriving DecidableEq

/-- Result of one iteration body of the scripts/start.py wait_for_server loop:
success, a retry after the 4 second sleep of the except branch, or an
immediate retry (the root URL answered with a server error, which the source
neither accepts nor sleeps on). -/
inductive AttemptResult where
  | accepted
  | retrySleep
  | retryNoSleep
deriving DecidableEq

/-- Embedding of the root-URL check of scripts/start.py lines 114-131: a
response is accepted when its status code is below 500; connection-refused
and read-timeout fall into the except branch that sleeps 4 seconds. -/
def attemptRoot : RootOutcome → AttemptResult
  | RootOutcome.status s => if s < 500 then AttemptResult.accepted else AttemptResult.retryNoSleep
  | RootOutcome.connRefused => AttemptResult.retrySleep
  | RootOutcome.readTimeout => AttemptResult.retrySleep

/-- Embedding of one iteration body of wait_for_server in scripts/start.py
lines 93-131: the dedicated health path is tried first and accepted exactly
on status 200; on any other health outcome the source falls through to the
root-URL check. -/
def attemptScripts (h : HealthOutcome) (r : RootOutcome) : AttemptResult :=
  match h with
  | HealthOutcome.status c => if c = 200 then AttemptResult.accepted else attemptRoot r
  | HealthOutcome.exn => attemptRoot r

/-- Embedding of wait_for_server in nssports/start.py lines 36-49: while the
elapsed time t is below the timeout, issue a GET against the root URL; any
HTTP response at all returns True; connection-refused and read-timeout sleep
1 second and retry.  probe n is the outcome of attempt n and dur n the time
the request itself took (at least one time unit in this discrete model).
Once the timeout has elapsed the function returns False. -/
def waitForServerNss (probe : Nat → RootOutcome) (dur : Nat → Nat)
    (timeout : Nat) (n : Nat) (t : Nat) : Bool :=
  if _h : t < timeout then
    match probe n with
    | RootOutcome.status _ => true
    | RootOutcome.connRefused => waitForServerNss probe dur timeout (n + 1) (t + dur n + 1)
    | RootOutcome.readTimeout => waitForServerNss probe dur timeout (n + 1) (t + dur n + 1)
  else false
termination_by timeout - t
decreasing_by
  all_goals omega

/-- Embedding of the wait_for_server loop of scripts/start.py lines 92-134:
each iteration evaluates attemptScripts on the health-path and root outcomes
of attempt n; acceptance returns True, the except branch sleeps 4 seconds and
retries, a root status of 500 or above retries without sleeping (the request
itself still takes at least one time unit).  Once the timeout has elapsed the
loop exits with False. -/
def waitForServerScripts (health : Nat → HealthOutcome) (root : Nat → RootOutcome)
    (dur : Nat → Nat) (timeout : Nat) (n : Nat) (t : Nat) : Bool :=
  if _h : t < timeout then
    match attemptScripts (health n) (root n) with
    | AttemptResult.accepted => true
    | AttemptResult.retrySleep => waitForServerScripts health root dur timeout (n + 1) (t + dur n + 4)
    | AttemptResult.retryNoSleep => waitForServerScripts health root dur timeout (n + 1) (t + dur n + 1)
  else false
termination_by timeout - t
decreasing_by
  all_goals omega

/-- Embedding of the entry into wait_for_server in scripts/start.py: the
function sleeps 10 seconds before the first attempt, and the timeout clock
starts before that sleep, so the loop starts at elapsed time 10. -/
def waitForServerScriptsRun (health : Nat → HealthOutcome) (root : Nat → RootOutcome)
    (dur : Nat → Nat) (timeout : Nat) : Bool :=
  waitForServerScripts health root dur timeout 0 10

-- ───────────────────────── Process handles and shutdown ─────────────────────────

/-- State of one child-process handle: the OS process is alive, has exited
without its status having been collected yet, or has been reaped (the Popen
returncode is set). -/
inductive ProcState where
  | running
  | exited
  | reaped
deriving DecidableEq

/-- Embedding of Popen.poll as documented for the subprocess library: collect
the exit status when the process has exited, otherwise leave the state
unchanged. -/
def popenPoll : ProcState → ProcState
  | ProcState.running => ProcState.running
  | ProcState.exited => ProcState.reaped
  | ProcState.reaped => ProcState.reaped

/-- Embedding of Popen.send_signal, which terminate and kill delegate to.
The library first polls the handle and, as documented, does nothing when the
process has completed; a signal is delivered only to a live process.  Returns
the handle state afterwards and whether a signal was actually delivered. -/
def popenSignal (st : ProcState) : ProcState × Bool :=
  match popenPoll st with
  | ProcState.running => (ProcState.running, true)
  | s => (s, false)

/-- Environment of one tracked process at the moment shutdown reaches it:
whether the script variable still references it, its handle state, whether it
exits within the grace wait or sleep that follows a graceful request, and
whether the graceful terminate call raises an OS error. -/
structure ProcEnv where
  tracked : Bool
  st : ProcState
  exitsInGrace : Bool
  termRaises : Bool
deriving DecidableEq

/-- Observable events of a supervisor run: process spawns, the health-gate
verdict, Popen terminate and kill invocations, signals actually delivered to
a live process, the readiness banner, and the tunnel troubleshooting text. -/
inductive Event where
  | spawn (name : String)
  | healthGate (ok : Bool)
  | termCall (name : String)
  | killCall (name : String)
  | sigTerm (name : String)
  | sigKill (name : String)
  | readyBanner
  | troubleshoot
deriving DecidableEq

/-- Embedding of the settlement-worker shutdown block of scripts/start.py
lines 305-319: terminate, wait up to 10 seconds, and only when that wait
raises TimeoutExpired issue kill and wait again; every exception from the
block is caught by the enclosing except clauses, so it never escapes. -/
def shutdownSettlement (p : ProcEnv) : List Event :=
  if p.tracked = false then []
  else if p.termRaises = true then [Event.termCall "settlement"]
  else
    let q := popenSignal p.st
    let ev1 := if q.2 = true then [Event.termCall "settlement", Event.sigTerm "settlement"]
               else [Event.termCall "settlement"]
    if q.1 = ProcState.running ∧ p.exitsInGrace = false then
      ev1 ++ [Event.killCall "settlement", Event.sigKill "settlement"]
    else ev1

/-- Embedding of the ngrok and dev-server shutdown blocks of scripts/start.py
lines 322-341: terminate (unguarded, so an OS error raised there escapes the
whole finally block), sleep a fixed grace time during which the process may
exit, then call kill inside a try whose except swallows any error; the
library delivers the kill signal only when the process is still alive after
the sleep.  Returns the events together with whether the terminate call
raised. -/
def shutdownSleepKill (name : String) (p : ProcEnv) : List Event × Bool :=
  if p.tracked = false then ([], false)
  else if p.termRaises = true then ([Event.termCall name], true)
  else
    let q := popenSignal p.st
    let ev1 := if q.2 = true then [Event.termCall name, Event.sigTerm name]
               else [Event.termCall name]
    let stAfter := if q.1 = ProcState.running ∧ p.exitsInGrace = true then ProcState.exited else q.1
    let k := popenSignal stAfter
    (ev1 ++ (if k.2 = true then [Event.killCall name, Event.sigKill name]
             else [Event.killCall name]), false)

/-- Embedding of the whole finally block of scripts/start.py lines 301-343:
settlement worker first, then ngrok, then the dev server.  An error raised by
the unguarded ngrok or dev-server terminate call aborts the remainder; the
second component names the process whose termination raised, none when the
teardown ran to completion. -/
def shutdownScripts (settlement ngrok dev : ProcEnv) : List Event × Option String :=
  let evS := shutdownSettlement settlement
  let rN := shutdownSleepKill "ngrok" ngrok
  if rN.2 = true then (evS ++ rN.1, some "ngrok")
  else
    let rD := shutdownSleepKill "dev_server" dev
    if rD.2 = true then (evS ++ rN.1 ++ rD.1, some "dev_server")
    else (evS ++ rN.1 ++ rD.1, none)

/-- Embedding of one terminate-only shutdown step of nssports/start.py lines
124-127: a bare Popen.terminate call with no kill and no error handling.
Returns the events and whether the call raised. -/
def shutdownTermOnly (name : String) (p : ProcEnv) : List Event × Bool :=
  if p.tracked = false then ([], false)
  else if p.termRaises = true then ([Event.termCall name], true)
  else
    let q := popenSignal p.st
    ((if q.2 = true then [Event.termCall name, Event.sigTerm name]
      else [Event.termCall name]), false)

/-- Embedding of the finally block of nssports/start.py lines 123-128: ngrok
is terminated first, then the dev server; neither call is guarded, so an
error raised while terminating ngrok skips the dev server. -/
def shutdownNss (ngrok dev : ProcEnv) : List Event × Option String :=
  let rN := shutdownTermOnly "ngrok" ngrok
  if rN.2 = true then (rN.1, some "ngrok")
  else
    let rD := shutdownTermOnly "dev_server" dev
    if rD.2 = true then (rN.1 ++ rD.1, some "dev_server")
    else (rN.1 ++ rD.1, none)

/-- Mark a process environment as referenced by its script variable. -/
def track (p : ProcEnv) : ProcEnv := ProcEnv.mk true p.st p.exitsInGrace p.termRaises

/-- Mark a process environment as not referenced (the variable is None). -/
def untrack (p : ProcEnv) : ProcEnv := ProcEnv.mk false p.st p.exitsInGrace p.termRaises

-- ───────────────────────── Full runs of the two entry points ─────────────────────────

/-- Environment of one run of scripts/start.py: the health-gate verdict, the
tunnel-verification verdict, whether the settlement worker is still alive at
its poll four seconds after spawning, whether a KeyboardInterrupt arrives
during the idle loop, and the shutdown-time behaviour of the three child
processes. -/
structure ScriptsEnv where
  healthOk : Bool
  tunnelOk : Bool
  workerAliveAfterStart : Bool
  interrupted : Bool
  settlement : ProcEnv
  ngrok : ProcEnv
  dev : ProcEnv
deriving DecidableEq

/-- Embedding of run in scripts/start.py lines 176-344.  The dev server is
spawned and gated on wait_for_server; on failure the function returns, so the
finally block runs with only the dev server tracked and the script exits with
status 0 (1 only when an uncaught termination error escapes).  On success
ngrok is spawned, tunnel verification on failure merely prints the
troubleshooting guidance, the settlement worker is spawned (its variable is
cleared when its poll shows it already exited), the readiness banner is
printed, and the script idles; a KeyboardInterrupt is caught and the finally
block tears everything down, after which the process exits 0.  The exit
component is none when the run never terminates. -/
def runScripts (e : ScriptsEnv) : List Event × Option Nat :=
  let pre := [Event.spawn "dev_server", Event.healthGate e.healthOk]
  if e.healthOk = true then
    let mid := pre ++ [Event.spawn "ngrok"]
      ++ (if e.tunnelOk = true then [] else [Event.troubleshoot])
      ++ [Event.spawn "settlement", Event.readyBanner]
    if e.interrupted = true then
      let sEnv := if e.workerAliveAfterStart = true then track e.settlement
                  else untrack e.settlement
      let r := shutdownScripts sEnv (track e.ngrok) (track e.dev)
      (mid ++ r.1, some (if r.2.isSome then 1 else 0))
    else (mid, none)
  else
    let r := shutdownScripts (untrack e.settlement) (untrack e.ngrok) (track e.dev)
    (pre ++ r.1, some (if r.2.isSome then 1 else 0))

/-- Environment of one run of nssports/start.py: the health-gate verdict,
whether the dev server has already exited when polled right after the ngrok
spawn, whether a KeyboardInterrupt arrives during the idle wait, whether the
dev server exits spontaneously during the idle wait, and the shutdown-time
behaviour of the two child processes. -/
structure NssEnv where
  healthOk : Bool
  devExitedAfterNgrokSpawn : Bool
  interrupted : Bool
  serverExitsDuringIdle : Bool
  ngrok : ProcEnv
  dev : ProcEnv
deriving DecidableEq

/-- Embedding of run in nssports/start.py lines 51-128.  On health-gate
failure the dev server is terminated in place and sys.exit(1) is raised; the
finally block then terminates the dev server a second time (ngrok was never
spawned) and the process exits 1, also when a termination error replaces the
SystemExit.  On success ngrok is spawned; if the dev server is then observed
already exited the function returns through the finally block, and otherwise
it blocks in dev_server.wait, which ends on an interrupt or on a spontaneous
dev-server exit, both flowing into the finally block; the process exits 0
unless a termination error escapes.  The exit component is none when the run
never terminates. -/
def runNss (e : NssEnv) : List Event × Option Nat :=
  let pre := [Event.spawn "dev_server", Event.healthGate e.healthOk]
  if e.healthOk = true then
    let mid := pre ++ [Event.spawn "ngrok"]
    if e.devExitedAfterNgrokSpawn = true ∨ e.interrupted = true ∨ e.serverExitsDuringIdle = true then
      let r := shutdownNss (track e.ngrok) (track e.dev)
      (mid ++ r.1, some (if r.2.isSome then 1 else 0))
    else (mid, none)
  else
    if e.dev.termRaises = true then
      (pre ++ [Event.termCall "dev_server", Event.termCall "dev_server"], some 1)
    else
      let q := popenSignal e.dev.st
      let ev1 := if q.2 = true then [Event.termCall "dev_server", Event.sigTerm "dev_server"]
                 else [Event.termCall "dev_server"]
      let stAfter := if q.1 = ProcState.running ∧ e.dev.exitsInGrace = true then ProcState.exited
                     else q.1
      let r := shutdownTermOnly "dev_server" (ProcEnv.mk true stAfter e.dev.exitsInGrace false)
      (pre ++ ev1 ++ r.1, some 1)

-- ───────────────────────── Idle waits ─────────────────────────

/-- How an idle wait ended: an interrupt at a given step, the dev server
observed exited at a given step, or still running after the examined number
of steps. -/
inductive IdleEnd where
  | interrupted (step : Nat)
  | serverExited (step : Nat)
  | running
deriving DecidableEq

/-- Embedding of the idle loop of scripts/start.py lines 295-296: while True,
sleep one second.  The body consults no process handle, so the serverAlive
oracle is never read and the loop ends only when the interrupt oracle fires;
fuel bounds how many iterations are examined. -/
def idleScriptsLoop (interrupt : Nat → Bool) (serverAlive : Nat → Bool) :
    Nat → Nat → IdleEnd
  | 0, _ => IdleEnd.running
  | fuel + 1, step =>
    if interrupt step = true then IdleEnd.interrupted step
    else idleScriptsLoop interrupt serverAlive fuel (step + 1)

/-- Embedding of the idle wait of nssports/start.py line 120, the blocking
dev_server.wait call: it ends when an interrupt arrives or when the dev
server is no longer alive, whichever is observed first. -/
def idleNssLoop (interrupt : Nat → Bool) (serverAlive : Nat → Bool) :
    Nat → Nat → IdleEnd
  | 0, _ => IdleEnd.running
  | fuel + 1, step =>
    if interrupt step = true then IdleEnd.interrupted step
    else if serverAlive step = false then IdleEnd.serverExited step
    else idleNssLoop interrupt serverAlive fuel (step + 1)

-- ───────────────────────── Empty-file cleaner (clean.py) ─────────────────────────

/-- Directory names pruned by clean.py (EXCLUDED_DIRS, lines 13-16). -/
def EXCLUDED_DIRS : List String :=
  [".git", "node_modules", ".next", "dist", "build",
   "__pycache__", ".pytest_cache", "coverage"]

/-- A file as the cleaner can observe it: its directory components below the
project root, its name, its stat size at scan time (and whether that stat
raised), and its existence, size and unlink behaviour at deletion time. -/
structure FsFile where
  dirs : List String
  name : String
  sizeAtScan : Nat
  statFailsAtScan : Bool
  existsAtDelete : Bool
  sizeAtDelete : Nat
  unlinkFails : Bool
deriving DecidableEq

/-- A file is visited by the os.walk of find_empty_files exactly when no
directory component on its path below the root is in EXCLUDED_DIRS; clean.py
line 28 prunes the walk with that name test at every level. -/
def walkedFile (f : FsFile) : Bool :=
  f.dirs.all (fun d => !(EXCLUDED_DIRS.contains d))

/-- Embedding of find_empty_files (clean.py lines 22-41): collect every
visited file whose stat succeeds and reports exactly 0 bytes. -/
def find_empty_files (fs : List FsFile) : List FsFile :=
  fs.filter (fun f => walkedFile f && !f.statFailsAtScan && f.sizeAtScan == 0)

/-- Embedding of the deletion phase of safe_delete_empty_files (clean.py
lines 65-83): nothing is unlinked without user confirmation; each scanned
candidate is re-checked to still exist with exactly 0 bytes right before its
unlink, and a failing unlink deletes nothing.  Returns the files actually
unlinked. -/
def safe_delete_empty_files (confirmed : Bool) (fs : List FsFile) : List FsFile :=
  if confirmed = false then []
  else (find_empty_files fs).filter
    (fun f => f.existsAtDelete && f.sizeAtDelete == 0 && !f.unlinkFails)

/-- Recognizer for graceful-terminate invocations in an event trace. -/
def isTermCall : Event → Bool
  | Event.termCall _ => true
  | _ => false

-- ───────────────────────── Helper lemmas ─────────────────────────

theorem shutdownSettlement_untrack (p : ProcEnv) :
    shutdownSettlement (untrack p) = [] := by
  simp [shutdownSettlement, untrack]

theorem shutdownSleepKill_untrack (name : String) (p : ProcEnv) :
    shutdownSleepKill name (untrack p) = ([], false) := by
  simp [shutdownSleepKill, untrack]

theorem shutdownSleepKill_snd (name : String) (p : ProcEnv)
    (h : p.termRaises = false) : (shutdownSleepKill name p).2 = false := by
  rcases p with ⟨t, st, g, r⟩
  simp only at h
  subst h
  cases t <;> simp [shutdownSleepKill]

theorem shutdownTermOnly_snd (name : String) (p : ProcEnv)
    (h : p.termRaises = false) : (shutdownTermOnly name p).2 = false := by
  rcases p with ⟨t, st, g, r⟩
  simp only at h
  subst h
  cases t <;> simp [shutdownTermOnly]

theorem shutdownScripts_eventsEq (s n d : ProcEnv) :
    (shutdownScripts s n d).1 =
      shutdownSettlement s ++ (shutdownSleepKill "ngrok" n).1 ++
        (if (shutdownSleepKill "ngrok" n).2 = true then []
         else (shutdownSleepKill "dev_server" d).1) := by
  by_cases hN : (shutdownSleepKill "ngrok" n).2 = true
  · simp [shutdownScripts, hN]
  · by_cases hD : (shutdownSleepKill "dev_server" d).2 = true <;>
      simp [shutdownScripts, hN, hD]

theorem shutdownScripts_escEq (s n d : ProcEnv) :
    (shutdownScripts s n d).2 =
      (if (shutdownSleepKill "ngrok" n).2 = true then some "ngrok"
       else if (shutdownSleepKill "dev_server" d).2 = true then some "dev_server"
       else none) := by
  by_cases hN : (shutdownSleepKill "ngrok" n).2 = true
  · simp [shutdownScripts, hN]
  · by_cases hD : (shutdownSleepKill "dev_server" d).2 = true <;>
      simp [shutdownScripts, hN, hD]

theorem shutdownNss_eventsEq (ng dv : ProcEnv) :
    (shutdownNss ng dv).1 =
      (shutdownTermOnly "ngrok" ng).1 ++
        (if (shutdownTermOnly "ngrok" ng).2 = true then []
         else (shutdownTermOnly "dev_server" dv).1) := by
  by_cases hN : (shutdownTermOnly "ngrok" ng).2 = true
  · simp [shutdownNss, hN]
  · by_cases hD : (shutdownTermOnly "dev_server" dv).2 = true <;>
      simp [shutdownNss, hN, hD]

theorem shutdownNss_escEq (ng dv : ProcEnv) :
    (shutdownNss ng dv).2 =
      (if (shutdownTermOnly "ngrok" ng).2 = true then some "ngrok"
       else if (shutdownTermOnly "dev_server" dv).2 = true then some "dev_server"
       else none) := by
  by_cases hN : (shutdownTermOnly "ngrok" ng).2 = true
  · simp [shutdownNss, hN]
  · by_cases hD : (shutdownTermOnly "dev_server" dv).2 = true <;>
      simp [shutdownNss, hN, hD]

theorem mem_shutdownSettlement (p : ProcEnv) (e : Event)
    (he : e ∈ shutdownSettlement p) :
    e = Event.termCall "settlement" ∨ e = Event.sigTerm "settlement" ∨
    e = Event.killCall "settlement" ∨ e = Event.sigKill "settlement" := by
  rcases p with ⟨t, st, g, r⟩
  revert he
  cases t <;> cases st <;> cases g <;> cases r <;>
    simp [shutdownSettlement, popenSignal, popenPoll] <;> tauto

theorem mem_shutdownSleepKill (name : String) (p : ProcEnv) (e : Event)
    (he : e ∈ (shutdownSleepKill name p).1) :
    e = Event.termCall name ∨ e = Event.sigTerm name ∨
    e = Event.killCall name ∨ e = Event.sigKill name := by
  rcases p with ⟨t, st, g, r⟩
  revert he
  cases t <;> cases st <;> cases g <;> cases r <;>
    simp [shutdownSleepKill, popenSignal, popenPoll] <;> tauto

theorem mem_shutdownTermOnly (name : String) (p : ProcEnv) (e : Event)
    (he : e ∈ (shutdownTermOnly name p).1) :
    e = Event.termCall name ∨ e = Event.sigTerm name := by
  rcases p with ⟨t, st, g, r⟩
  revert he
  cases t <;> cases st <;> cases g <;> cases r <;>
    simp [shutdownTermOnly, popenSignal, popenPoll] <;> tauto

theorem termCall_mem_shutdownTermOnly (name : String) (p : ProcEnv)
    (h : p.tracked = true) :
    Event.termCall name ∈ (shutdownTermOnly name p).1 := by
  rcases p with ⟨t, st, g, r⟩
  simp only at h
  subst h
  cases st <;> cases r <;> simp [shutdownTermOnly, popenSignal, popenPoll]

theorem count_sigKill_shutdownSettlement (p : ProcEnv) :
    (shutdownSettlement p).count (Event.sigKill "settlement") ≤ 1 ∧
    (shutdownSettlement p).count (Event.sigKill "ngrok") = 0 ∧
    (shutdownSettlement p).count (Event.sigKill "dev_server") = 0 := by
  rcases p with ⟨t, st, g, r⟩
  cases t <;> cases st <;> cases g <;> cases r <;> decide

theorem count_sigKill_shutdownSleepKill_ngrok (p : ProcEnv) :
    ((shutdownSleepKill "ngrok" p).1.count (Event.sigKill "ngrok") ≤ 1) ∧
    ((shutdownSleepKill "ngrok" p).1.count (Event.sigKill "settlement") = 0) ∧
    ((shutdownSleepKill "ngrok" p).1.count (Event.sigKill "dev_server") = 0) := by
  rcases p with ⟨t, st, g, r⟩
  cases t <;> cases st <;> cases g <;> cases r <;> decide

theorem count_sigKill_shutdownSleepKill_dev (p : ProcEnv) :
    ((shutdownSleepKill "dev_server" p).1.count (Event.sigKill "dev_server") ≤ 1) ∧
    ((shutdownSleepKill "dev_server" p).1.count (Event.sigKill "settlement") = 0) ∧
    ((shutdownSleepKill "dev_server" p).1.count (Event.sigKill "ngrok") = 0) := by
  rcases p with ⟨t, st, g, r⟩
  cases t <;> cases st <;> cases g <;> cases r <;> decide

theorem sigKill_shutdownSettlement_cond (p : ProcEnv)
    (h : Event.sigKill "settlement" ∈ shutdownSettlement p) :
    p.st = ProcState.running ∧ p.exitsInGrace = false := by
  rcases p with ⟨t, st, g, r⟩
  revert h
  cases t <;> cases st <;> cases g <;> cases r <;> decide

theorem sigKill_shutdownSleepKill_cond (name : String) (p : ProcEnv)
    (h : Event.sigKill name ∈ (shutdownSleepKill name p).1) :
    p.st = ProcState.running ∧ p.exitsInGrace = false := by
  rcases p with ⟨t, st, g, r⟩
  revert h
  cases t <;> cases st <;> cases g <;> cases r <;>
    simp [shutdownSleepKill, popenSignal, popenPoll]

theorem idleScriptsLoop_no_interrupt (s : Nat → Bool) :
    ∀ fuel step, idleScriptsLoop (fun _ => false) s fuel step = IdleEnd.running := by
  intro fuel
  induction fuel with
  | zero => intro step; rfl
  | succ k ih => intro step; simp [idleScriptsLoop, ih]

theorem termCall_mem_shutdownSettlement (p : ProcEnv) (h : p.tracked = true) :
    Event.termCall "settlement" ∈ shutdownSettlement p := by
  rcases p with ⟨t, st, g, r⟩
  simp only at h
  subst h
  cases st <;> cases g <;> cases r <;> decide

theorem shutdownSleepKill_raises (name : String) (p : ProcEnv)
    (ht : p.tracked = true) (hr : p.termRaises = true) :
    shutdownSleepKill name p = ([Event.termCall name], true) := by
  rcases p with ⟨t, st, g, r⟩
  simp only at ht hr
  subst ht
  subst hr
  simp [shutdownSleepKill]

theorem shutdownTermOnly_raises (name : String) (p : ProcEnv)
    (ht : p.tracked = true) (hr : p.termRaises = true) :
    shutdownTermOnly name p = ([Event.termCall name], true) := by
  rcases p with ⟨t, st, g, r⟩
  simp only at ht hr
  subst ht
  subst hr
  simp [shutdownTermOnly]

theorem filter_termCall_shutdownSettlement (p : ProcEnv) (h : p.tracked = true) :
    (shutdownSettlement p).filter isTermCall = [Event.termCall "settlement"] := by
  rcases p with ⟨t, st, g, r⟩
  simp only at h
  subst h
  cases st <;> cases g <;> cases r <;> decide

theorem filter_termCall_shutdownSleepKill (name : String) (p : ProcEnv)
    (h : p.tracked = true) :
    ((shutdownSleepKill name p).1).filter isTermCall = [Event.termCall name] := by
  rcases p with ⟨t, st, g, r⟩
  simp only at h
  subst h
  cases st <;> cases g <;> cases r <;>
    simp [shutdownSleepKill, popenSignal, popenPoll, isTermCall]

theorem filter_termCall_shutdownTermOnly (name : String) (p : ProcEnv)
    (h : p.tracked = true) :
    ((shutdownTermOnly name p).1).filter isTermCall = [Event.termCall name] := by
  rcases p with ⟨t, st, g, r⟩
  simp only at h
  subst h
  cases st <;> cases r <;>
    simp [shutdownTermOnly, popenSignal, popenPoll, isTermCall]

theorem shutdownSettlement_dead (p : ProcEnv) (hs : p.st ≠ ProcState.running)
    (hr : p.termRaises = false) :
    shutdownSettlement p = if p.tracked = true then [Event.termCall "settlement"] else [] := by
  rcases p with ⟨t, st, g, r⟩
  simp only at hs hr
  subst hr
  cases t <;> cases st <;> cases g <;>
    simp_all [shutdownSettlement, popenSignal, popenPoll]

theorem shutdownSleepKill_dead (name : String) (p : ProcEnv)
    (hs : p.st ≠ ProcState.running) (hr : p.termRaises = false) :
    shutdownSleepKill name p =
      (if p.tracked = true then [Event.termCall name, Event.killCall name] else [], false) := by
  rcases p with ⟨t, st, g, r⟩
  simp only at hs hr
  subst hr
  cases t <;> cases st <;> cases g <;>
    simp_all [shutdownSleepKill, popenSignal, popenPoll]

theorem shutdownTermOnly_dead (name : String) (p : ProcEnv)
    (hs : p.st ≠ ProcState.running) (hr : p.termRaises = false) :
    shutdownTermOnly name p =
      (if p.tracked = true then [Event.termCall name] else [], false) := by
  rcases p with ⟨t, st, g, r⟩
  simp only at hs hr
  subst hr
  cases t <;> cases st <;> cases g <;>
    simp_all [shutdownTermOnly, popenSignal, popenPoll]

theorem spawn_not_mem_shutdownScripts (s n d : ProcEnv) (nm : String) :
    Event.spawn nm ∉ (shutdownScripts s n d).1 := by
  rw [shutdownScripts_eventsEq]
  intro hmem
  rcases List.mem_append.mp hmem with hab | hifpart
  · rcases List.mem_append.mp hab with ha | hb
    · rcases mem_shutdownSettlement _ _ ha with h | h | h | h <;> exact Event.noConfusion h
    · rcases mem_shutdownSleepKill _ _ _ hb with h | h | h | h <;> exact Event.noConfusion h
  · by_cases hc : (shutdownSleepKill "ngrok" n).2 = true
    · rw [if_pos hc] at hifpart
      simp at hifpart
    · rw [if_neg hc] at hifpart
      rcases mem_shutdownSleepKill _ _ _ hifpart with h | h | h | h <;> exact Event.noConfusion h

-- ───────────────────────── Claim theorems ─────────────────────────

/-- C10: every file the cleaner unlinks has size exactly 0 bytes at the moment
of deletion (re-checked after the scan) and still exists and was reached by
the pruned walk; a file whose size is nonzero at deletion time is never
unlinked; and a file lying under a directory whose name is in EXCLUDED_DIRS
is never unlinked. -/
theorem c10_cleaner_deletes_only_empty_unexcluded_files :
    (∀ conf fs (f : FsFile), f ∈ safe_delete_empty_files conf fs →
       f.sizeAtDelete = 0 ∧ f.existsAtDelete = true ∧ walkedFile f = true) ∧
    (∀ conf fs (f : FsFile), f.sizeAtDelete ≠ 0 → f ∉ safe_delete_empty_files conf fs) ∧
    (∀ conf fs (f : FsFile) (d : String), d ∈ f.dirs → d ∈ EXCLUDED_DIRS →
       f ∉ safe_delete_empty_files conf fs) := by
  have key : ∀ conf fs (f : FsFile), f ∈ safe_delete_empty_files conf fs →
      f.sizeAtDelete = 0 ∧ f.existsAtDelete = true ∧ walkedFile f = true := by
    intro conf fs f hf
    by_cases hc : conf = false
    · simp [safe_delete_empty_files, hc] at hf
    · rw [safe_delete_empty_files, if_neg hc, List.mem_filter] at hf
      obtain ⟨hmem, hpred⟩ := hf
      rw [find_empty_files, List.mem_filter] at hmem
      obtain ⟨_, hscan⟩ := hmem
      simp only [Bool.and_eq_true, Bool.not_eq_true', beq_iff_eq] at hpred hscan
      exact ⟨hpred.1.2, hpred.1.1, hscan.1.1⟩
  refine ⟨key, ?_, ?_⟩
  · intro conf fs f hne hf
    exact hne (key conf fs f hf).1
  · intro conf fs f d hd hex hf
    have hw := (key conf fs f hf).2.2
    rw [walkedFile, List.all_eq_true] at hw
    have hwd := hw d hd
    simp [hex] at hwd

/-- C10 witness: the cleaner run on one visited, empty, still-empty file
deletes it, and the theorem instance confirms its deletion-time size is 0,
it still exists, and it was reached by the pruned walk. -/
theorem c10_witness :
    (FsFile.mk ["src"] "empty" 0 false true 0 false).sizeAtDelete = 0 ∧
    (FsFile.mk ["src"] "empty" 0 false true 0 false).existsAtDelete = true ∧
    walkedFile (FsFile.mk ["src"] "empty" 0 false true 0 false) = true :=
  c10_cleaner_deletes_only_empty_unexcluded_files.1 true
    [FsFile.mk ["src"] "empty" 0 false true 0 false]
    (FsFile.mk ["src"] "empty" 0 false true 0 false) (by decide)

/-- C6: in both wait_for_server variants a connection-refused or read-timeout
outcome makes the loop sleep its interval (1 second in nssports, 4 seconds in
scripts) and retry, and once the timeout has elapsed since the clock started
before the first attempt the loop returns False; the timed-out conjuncts are
quantified over every probe oracle, so no request at all is issued past that
point.  The last conjunct identifies the sleep-and-retry classification of
the scripts root check with exactly the connection-refused and read-timeout
outcomes. -/
theorem c6_retry_and_timeout_discipline :
    (∀ probe dur timeout n t, t < timeout →
       (probe n = RootOutcome.connRefused ∨ probe n = RootOutcome.readTimeout) →
       waitForServerNss probe dur timeout n t =
         waitForServerNss probe dur timeout (n + 1) (t + dur n + 1)) ∧
    (∀ probe dur timeout n t, timeout ≤ t →
       waitForServerNss probe dur timeout n t = false) ∧
    (∀ health root dur timeout n t, t < timeout →
       attemptScripts (health n) (root n) = AttemptResult.retrySleep →
       waitForServerScripts health root dur timeout n t =
         waitForServerScripts health root dur timeout (n + 1) (t + dur n + 4)) ∧
    (∀ health root dur timeout n t, timeout ≤ t →
       waitForServerScripts health root dur timeout n t = false) ∧
    (∀ r, attemptRoot r = AttemptResult.retrySleep ↔
       (r = RootOutcome.connRefused ∨ r = RootOutcome.readTimeout)) := by
  refine ⟨?_, ?_, ?_, ?_, ?_⟩
  · intro probe dur timeout n t ht hp
    rw [waitForServerNss.eq_def]
    rcases hp with hp | hp <;> rw [dif_pos ht, hp]
  · intro probe dur timeout n t ht
    rw [waitForServerNss.eq_def, dif_neg (by omega)]
  · intro health root dur timeout n t ht ha
    rw [waitForServerScripts.eq_def, dif_pos ht, ha]
  · intro health root dur timeout n t ht
    rw [waitForServerScripts.eq_def, dif_neg (by omega)]
  · intro r
    cases r <;> simp [attemptRoot] <;> split <;> simp

/-- C6 witness: concrete instances of the retry equation and of the timed-out
result for both variants. -/
theorem c6_witness :
    (waitForServerNss (fun _ => RootOutcome.connRefused) (fun _ => 0) 3 0 0 =
       waitForServerNss (fun _ => RootOutcome.connRefused) (fun _ => 0) 3 1 1) ∧
    waitForServerNss (fun _ => RootOutcome.connRefused) (fun _ => 0) 3 5 3 = false ∧
    (waitForServerScripts (fun _ => HealthOutcome.exn) (fun _ => RootOutcome.readTimeout)
       (fun _ => 0) 20 0 10 =
     waitForServerScripts (fun _ => HealthOutcome.exn) (fun _ => RootOutcome.readTimeout)
       (fun _ => 0) 20 1 14) ∧
    waitForServerScripts (fun _ => HealthOutcome.exn) (fun _ => RootOutcome.readTimeout)
      (fun _ => 0) 20 2 20 = false :=
  ⟨c6_retry_and_timeout_discipline.1 (fun _ => RootOutcome.connRefused) (fun _ => 0) 3 0 0
     (by omega) (Or.inl rfl),
   c6_retry_and_timeout_discipline.2.1 (fun _ => RootOutcome.connRefused) (fun _ => 0) 3 5 3
     (by omega),
   c6_retry_and_timeout_discipline.2.2.1 (fun _ => HealthOutcome.exn)
     (fun _ => RootOutcome.readTimeout) (fun _ => 0) 20 0 10 (by omega) rfl,
   c6_retry_and_timeout_discipline.2.2.2.1 (fun _ => HealthOutcome.exn)
     (fun _ => RootOutcome.readTimeout) (fun _ => 0) 20 2 20 (by omega)⟩

/-- C5 counterexample: in the nssports variant of wait_for_server a health
poll accepts the server on a root-URL response with status 500, and no
dedicated health path exists to be consulted first, so the claim that every
health poll checks the dedicated path first and accepts the root URL only
below status 500 is false of this program at this input. -/
theorem c5_counterexample :
    waitForServerNss (fun _ => RootOutcome.status 500) (fun _ => 0) 60 0 0 = true := by
  rw [waitForServerNss.eq_def, dif_pos (by omega : (0:Nat) < 60)]

/-- C5 amended: in the scripts variant the dedicated health path is checked
first and accepted exactly on status 200 (in which case the root URL is not
consulted at all), and otherwise the root URL is accepted exactly on a status
below 500; the nssports variant, however, has no dedicated health path and
accepts any HTTP response to the root URL regardless of its status code. -/
theorem c5_amended_health_predicates :
    (∀ r r2 : RootOutcome,
       attemptScripts (HealthOutcome.status 200) r = AttemptResult.accepted ∧
       attemptScripts (HealthOutcome.status 200) r =
         attemptScripts (HealthOutcome.status 200) r2) ∧
    (∀ h : HealthOutcome, h ≠ HealthOutcome.status 200 → ∀ s,
       (attemptScripts h (RootOutcome.status s) = AttemptResult.accepted ↔ s < 500)) ∧
    (∀ probe dur timeout n t s, t < timeout → probe n = RootOutcome.status s →
       waitForServerNss probe dur timeout n t = true) := by
  refine ⟨?_, ?_, ?_⟩
  · intro r r2
    exact ⟨rfl, rfl⟩
  · intro h hne s
    cases h with
    | status c =>
      have hc : ¬(c = 200) := by
        intro hcc
        exact hne (by rw [hcc])
      simp only [attemptScripts, attemptRoot, if_neg hc]
      by_cases hs : s < 500 <;> simp [hs]
    | exn =>
      simp only [attemptScripts, attemptRoot]
      by_cases hs : s < 500 <;> simp [hs]
  · intro probe dur timeout n t s ht hp
    rw [waitForServerNss.eq_def, dif_pos ht, hp]

/-- C5 witness: a non-200 health outcome falls through to the root URL, a 499
response there is accepted, and the nssports loop accepts a status-0 response
on its first attempt. -/
theorem c5_witness :
    attemptScripts HealthOutcome.exn (RootOutcome.status 499) = AttemptResult.accepted ∧
    waitForServerNss (fun _ => RootOutcome.status 0) (fun _ => 0) 5 0 0 = true :=
  ⟨(c5_amended_health_predicates.2.1 HealthOutcome.exn (by decide) 499).mpr (by omega),
   c5_amended_health_predicates.2.2 (fun _ => RootOutcome.status 0) (fun _ => 0) 5 0 0 0
     (by omega) rfl⟩

/-- C4 counterexample: with the dev server dead from step 0 and no interrupt
ever arriving, the idle loop of scripts/start.py is still running after 1000
iterations; a spontaneous exit of a Ready required process neither ends the
idle wait nor triggers any shutdown there, so the claim is false of this
program at this input. -/
theorem c4_counterexample :
    idleScriptsLoop (fun _ => false) (fun _ => false) 1000 0 = IdleEnd.running :=
  idleScriptsLoop_no_interrupt (fun _ => false) 1000 0

/-- C4 amended: the scripts idle loop ends only on an external interrupt and
can never report a spontaneous server exit, while the nssports idle wait ends
on an interrupt or on the dev server having exited, and in the latter case
the run proceeds into the full shutdown of both remaining processes. -/
theorem c4_amended_idle_wait :
    (∀ i s fuel step k,
       idleScriptsLoop i s fuel step = IdleEnd.interrupted k → i k = true) ∧
    (∀ i s fuel step k, idleScriptsLoop i s fuel step ≠ IdleEnd.serverExited k) ∧
    (∀ i s fuel step k, idleNssLoop i s fuel step = IdleEnd.serverExited k →
       s k = false ∧ i k = false) ∧
    (∀ e : NssEnv, e.healthOk = true → e.devExitedAfterNgrokSpawn = false →
       e.interrupted = false → e.serverExitsDuringIdle = true → e.ngrok.termRaises = false →
       Event.termCall "ngrok" ∈ (runNss e).1 ∧
       Event.termCall "dev_server" ∈ (runNss e).1) := by
  refine ⟨?_, ?_, ?_, ?_⟩
  · intro i s fuel
    induction fuel with
    | zero =>
      intro step k h
      exact absurd h (by simp [idleScriptsLoop])
    | succ m ih =>
      intro step k h
      simp only [idleScriptsLoop] at h
      split at h
      · injection h with hk
        subst hk
        assumption
      · exact ih (step + 1) k h
  · intro i s fuel
    induction fuel with
    | zero =>
      intro step k
      simp [idleScriptsLoop]
    | succ m ih =>
      intro step k
      simp only [idleScriptsLoop]
      split
      · simp
      · exact ih (step + 1) k
  · intro i s fuel
    induction fuel with
    | zero =>
      intro step k h
      exact absurd h (by simp [idleNssLoop])
    | succ m ih =>
      intro step k h
      simp only [idleNssLoop] at h
      split at h
      · exact absurd h (by simp)
      · split at h
        · injection h with hk
          subst hk
          refine ⟨by assumption, ?_⟩
          rename_i hcond hx
          simp only [Bool.not_eq_true] at hcond
          exact hcond
        · exact ih (step + 1) k h
  · intro e h1 h2 h3 h4 h5
    rcases e with ⟨ho, dx, it, sx, ng, dv⟩
    simp only at h1 h2 h3 h4 h5
    subst h1; subst h2; subst h3; subst h4
    have hN : (shutdownTermOnly "ngrok" (track ng)).2 = false :=
      shutdownTermOnly_snd _ _ (by simp [track, h5])
    have hsub : ∀ x : Event, x ∈ (shutdownNss (track ng) (track dv)).1 →
        x ∈ (runNss (NssEnv.mk true false false true ng dv)).1 := by
      intro x hx
      simp [runNss, List.mem_append]
      tauto
    constructor
    · refine hsub _ ?_
      rw [shutdownNss_eventsEq]
      exact List.mem_append_left _ (termCall_mem_shutdownTermOnly "ngrok" (track ng)
        (by simp [track]))
    · refine hsub _ ?_
      rw [shutdownNss_eventsEq, if_neg (by simp [hN])]
      exact List.mem_append_right _ (termCall_mem_shutdownTermOnly "dev_server" (track dv)
        (by simp [track]))

/-- C4 witness: a concrete nssports run whose idle wait ends on a spontaneous
dev-server exit and whose trace contains the shutdown of both remaining
processes. -/
theorem c4_witness :
    Event.termCall "ngrok" ∈
      (runNss (NssEnv.mk true false false true
        (ProcEnv.mk true ProcState.running true false)
        (ProcEnv.mk true ProcState.running true false))).1 ∧
    Event.termCall "dev_server" ∈
      (runNss (NssEnv.mk true false false true
        (ProcEnv.mk true ProcState.running true false)
        (ProcEnv.mk true ProcState.running true false))).1 :=
  c4_amended_idle_wait.2.2.2
    (NssEnv.mk true false false true
      (ProcEnv.mk true ProcState.running true false)
      (ProcEnv.mk true ProcState.running true false)) rfl rfl rfl rfl rfl


/-- C1: when the required dev-server health gate never reports accepted
status before its timeout, no later-declared process (ngrok, settlement
worker) is ever spawned in either variant, and every termination call of the
ensuing shutdown names a process that was spawned in that same trace. -/
theorem c1_health_gate_failure_stops_pipeline :
    (∀ e : ScriptsEnv, e.healthOk = false →
       Event.spawn "ngrok" ∉ (runScripts e).1 ∧
       Event.spawn "settlement" ∉ (runScripts e).1 ∧
       (∀ nm, Event.termCall nm ∈ (runScripts e).1 → Event.spawn nm ∈ (runScripts e).1)) ∧
    (∀ e : NssEnv, e.healthOk = false →
       Event.spawn "ngrok" ∉ (runNss e).1 ∧
       (∀ nm, Event.termCall nm ∈ (runNss e).1 → Event.spawn nm ∈ (runNss e).1)) := by
  constructor
  · intro e h
    rcases e with ⟨ho, tu, wa, it, s, n, d⟩
    simp only at h
    subst h
    have hsh : (shutdownScripts (untrack s) (untrack n) (track d)).1 =
        (shutdownSleepKill "dev_server" (track d)).1 := by
      rw [shutdownScripts_eventsEq, shutdownSettlement_untrack, shutdownSleepKill_untrack]
      simp
    have hrun : (runScripts (ScriptsEnv.mk false tu wa it s n d)).1 =
        [Event.spawn "dev_server", Event.healthGate false] ++
          (shutdownScripts (untrack s) (untrack n) (track d)).1 := by
      simp [runScripts]
    refine ⟨?_, ?_, ?_⟩
    · rw [hrun]
      intro hmem
      rcases List.mem_append.mp hmem with hpre | hsd
      · simp at hpre
      · exact spawn_not_mem_shutdownScripts _ _ _ _ hsd
    · rw [hrun]
      intro hmem
      rcases List.mem_append.mp hmem with hpre | hsd
      · simp at hpre
      · exact spawn_not_mem_shutdownScripts _ _ _ _ hsd
    · intro nm hmem
      rw [hrun] at hmem ⊢
      rcases List.mem_append.mp hmem with hpre | hsd
      · simp at hpre
      · rw [hsh] at hsd
        rcases mem_shutdownSleepKill _ _ _ hsd with hx | hx | hx | hx
        · have hnm := Event.termCall.inj hx
          subst hnm
          simp
        all_goals exact Event.noConfusion hx
  · intro e h
    rcases e with ⟨ho, dx, it, sx, ng, dv⟩
    simp only at h
    subst h
    constructor
    · rcases dv with ⟨t2, st2, g2, r2⟩
      cases st2 <;> cases g2 <;> cases r2 <;>
        simp [runNss, shutdownTermOnly, popenSignal, popenPoll]
    · intro nm hmem
      rcases dv with ⟨t2, st2, g2, r2⟩
      cases st2 <;> cases g2 <;> cases r2 <;>
        simp_all [runNss, shutdownTermOnly, popenSignal, popenPoll]

/-- C1 witness: a concrete scripts run whose health gate fails spawns neither
ngrok nor the settlement worker. -/
theorem c1_witness :
    Event.spawn "ngrok" ∉
      (runScripts (ScriptsEnv.mk false true true false
        (ProcEnv.mk true ProcState.running true false)
        (ProcEnv.mk true ProcState.running true false)
        (ProcEnv.mk true ProcState.running true false))).1 ∧
    Event.spawn "settlement" ∉
      (runScripts (ScriptsEnv.mk false true true false
        (ProcEnv.mk true ProcState.running true false)
        (ProcEnv.mk true ProcState.running true false)
        (ProcEnv.mk true ProcState.running true false))).1 :=
  ⟨(c1_health_gate_failure_stops_pipeline.1
      (ScriptsEnv.mk false true true false
        (ProcEnv.mk true ProcState.running true false)
        (ProcEnv.mk true ProcState.running true false)
        (ProcEnv.mk true ProcState.running true false)) rfl).1,
   (c1_health_gate_failure_stops_pipeline.1
      (ScriptsEnv.mk false true true false
        (ProcEnv.mk true ProcState.running true false)
        (ProcEnv.mk true ProcState.running true false)
        (ProcEnv.mk true ProcState.running true false)) rfl).2.1⟩

/-- C2 counterexample: a concrete scripts run whose required health gate
fails terminates with process exit status 0, not the non-zero status the
claim requires for every supervisor entry point. -/
theorem c2_counterexample :
    (runScripts (ScriptsEnv.mk false true true false
      (ProcEnv.mk true ProcState.running true false)
      (ProcEnv.mk true ProcState.running true false)
      (ProcEnv.mk true ProcState.running true false))).2 = some 0 := rfl

/-- C2 amended: on a required-stage failure the nssports entry point exits 1
after its shutdown attempts, but the scripts entry point merely returns, so
its process exit status is 0 after the shutdown of what was started; on a
clean interrupt both entry points exit 0 after shutdown completes (provided
no termination error escapes the teardown). -/
theorem c2_amended_exit_codes :
    (∀ e : NssEnv, e.healthOk = false → (runNss e).2 = some 1) ∧
    (∀ e : ScriptsEnv, e.healthOk = false → e.dev.termRaises = false →
       (runScripts e).2 = some 0) ∧
    (∀ e : ScriptsEnv, e.healthOk = true → e.interrupted = true →
       e.ngrok.termRaises = false → e.dev.termRaises = false →
       (runScripts e).2 = some 0) ∧
    (∀ e : NssEnv, e.healthOk = true → e.interrupted = true →
       e.ngrok.termRaises = false → e.dev.termRaises = false →
       (runNss e).2 = some 0) := by
  refine ⟨?_, ?_, ?_, ?_⟩
  · intro e h
    rcases e with ⟨ho, dx, it, sx, ng, dv⟩
    simp only at h
    subst h
    by_cases hr : dv.termRaises = true <;> simp [runNss, hr]
  · intro e h hterm
    rcases e with ⟨ho, tu, wa, it, s, n, d⟩
    simp only at h hterm
    subst h
    have h1 : (shutdownSleepKill "ngrok" (untrack n)).2 = false := by
      rw [shutdownSleepKill_untrack]
    have h2 : (shutdownSleepKill "dev_server" (track d)).2 = false :=
      shutdownSleepKill_snd _ _ (by simp [track, hterm])
    simp [runScripts, shutdownScripts_escEq, h1, h2]
  · intro e h hint hn hd
    rcases e with ⟨ho, tu, wa, it, s, n, d⟩
    simp only at h hint hn hd
    subst h
    subst hint
    have h1 : (shutdownSleepKill "ngrok" (track n)).2 = false :=
      shutdownSleepKill_snd _ _ (by simp [track, hn])
    have h2 : (shutdownSleepKill "dev_server" (track d)).2 = false :=
      shutdownSleepKill_snd _ _ (by simp [track, hd])
    simp [runScripts, shutdownScripts_escEq, h1, h2]
  · intro e h hint hn hd
    rcases e with ⟨ho, dx, it, sx, ng, dv⟩
    simp only at h hint hn hd
    subst h
    subst hint
    have h1 : (shutdownTermOnly "ngrok" (track ng)).2 = false :=
      shutdownTermOnly_snd _ _ (by simp [track, hn])
    have h2 : (shutdownTermOnly "dev_server" (track dv)).2 = false :=
      shutdownTermOnly_snd _ _ (by simp [track, hd])
    simp [runNss, shutdownNss_escEq, h1, h2]

/-- C2 witness: concrete instances of the amended exit codes, one for each
conjunct. -/
theorem c2_witness :
    (runNss (NssEnv.mk false false false false
      (ProcEnv.mk true ProcState.running true false)
      (ProcEnv.mk true ProcState.running true false))).2 = some 1 ∧
    (runScripts (ScriptsEnv.mk false true false false
      (ProcEnv.mk true ProcState.running true false)
      (ProcEnv.mk true ProcState.running true false)
      (ProcEnv.mk true ProcState.running true false))).2 = some 0 ∧
    (runScripts (ScriptsEnv.mk true true true true
      (ProcEnv.mk true ProcState.running true false)
      (ProcEnv.mk true ProcState.running true false)
      (ProcEnv.mk true ProcState.running true false))).2 = some 0 ∧
    (runNss (NssEnv.mk true false true false
      (ProcEnv.mk true ProcState.running true false)
      (ProcEnv.mk true ProcState.running true false))).2 = some 0 :=
  ⟨c2_amended_exit_codes.1 (NssEnv.mk false false false false
      (ProcEnv.mk true ProcState.running true false)
      (ProcEnv.mk true ProcState.running true false)) rfl,
   c2_amended_exit_codes.2.1 (ScriptsEnv.mk false true false false
      (ProcEnv.mk true ProcState.running true false)
      (ProcEnv.mk true ProcState.running true false)
      (ProcEnv.mk true ProcState.running true false)) rfl rfl,
   c2_amended_exit_codes.2.2.1 (ScriptsEnv.mk true true true true
      (ProcEnv.mk true ProcState.running true false)
      (ProcEnv.mk true ProcState.running true false)
      (ProcEnv.mk true ProcState.running true false)) rfl rfl rfl rfl,
   c2_amended_exit_codes.2.2.2 (NssEnv.mk true false true false
      (ProcEnv.mk true ProcState.running true false)
      (ProcEnv.mk true ProcState.running true false)) rfl rfl rfl rfl⟩

/-- C3: in every shutdown run a kill signal is delivered to any given process
at most once, and only to a process that was still alive when its graceful
request was issued and that had not exited within its grace period (the
process library polls the handle at the kill call and delivers nothing to a
process that has completed, so every delivered forced kill follows an
observation that the process outlived its grace period); the nssports
variant never issues a forced kill at all. -/
theorem c3_forced_kill_once_and_only_after_grace :
    (∀ s n d : ProcEnv,
      ((shutdownScripts s n d).1.count (Event.sigKill "settlement") ≤ 1 ∧
       (shutdownScripts s n d).1.count (Event.sigKill "ngrok") ≤ 1 ∧
       (shutdownScripts s n d).1.count (Event.sigKill "dev_server") ≤ 1) ∧
      (Event.sigKill "settlement" ∈ (shutdownScripts s n d).1 →
        s.st = ProcState.running ∧ s.exitsInGrace = false) ∧
      (Event.sigKill "ngrok" ∈ (shutdownScripts s n d).1 →
        n.st = ProcState.running ∧ n.exitsInGrace = false) ∧
      (Event.sigKill "dev_server" ∈ (shutdownScripts s n d).1 →
        d.st = ProcState.running ∧ d.exitsInGrace = false)) ∧
    (∀ ng dv : ProcEnv, ∀ nm : String,
       Event.sigKill nm ∉ (shutdownNss ng dv).1 ∧
       Event.killCall nm ∉ (shutdownNss ng dv).1) := by
  constructor
  · intro s n d
    obtain ⟨hs1, hs2, hs3⟩ := count_sigKill_shutdownSettlement s
    obtain ⟨hn1, hn2, hn3⟩ := count_sigKill_shutdownSleepKill_ngrok n
    obtain ⟨hd1, hd2, hd3⟩ := count_sigKill_shutdownSleepKill_dev d
    have hev := shutdownScripts_eventsEq s n d
    refine ⟨?_, ?_, ?_, ?_⟩
    · rw [hev]
      by_cases hc : (shutdownSleepKill "ngrok" n).2 = true
      · rw [if_pos hc]
        simp only [List.count_append, List.count_nil]
        exact ⟨by omega, by omega, by omega⟩
      · rw [if_neg hc]
        simp only [List.count_append]
        exact ⟨by omega, by omega, by omega⟩
    · intro hmem
      rw [hev] at hmem
      rcases List.mem_append.mp hmem with hab | hifpart
      · rcases List.mem_append.mp hab with ha | hb
        · exact sigKill_shutdownSettlement_cond s ha
        · exact absurd hb (List.count_eq_zero.mp hn2)
      · by_cases hc : (shutdownSleepKill "ngrok" n).2 = true
        · rw [if_pos hc] at hifpart
          simp at hifpart
        · rw [if_neg hc] at hifpart
          exact absurd hifpart (List.count_eq_zero.mp hd2)
    · intro hmem
      rw [hev] at hmem
      rcases List.mem_append.mp hmem with hab | hifpart
      · rcases List.mem_append.mp hab with ha | hb
        · exact absurd ha (List.count_eq_zero.mp hs2)
        · exact sigKill_shutdownSleepKill_cond "ngrok" n hb
      · by_cases hc : (shutdownSleepKill "ngrok" n).2 = true
        · rw [if_pos hc] at hifpart
          simp at hifpart
        · rw [if_neg hc] at hifpart
          exact absurd hifpart (List.count_eq_zero.mp hd3)
    · intro hmem
      rw [hev] at hmem
      rcases List.mem_append.mp hmem with hab | hifpart
      · rcases List.mem_append.mp hab with ha | hb
        · exact absurd ha (List.count_eq_zero.mp hs3)
        · exact absurd hb (List.count_eq_zero.mp hn3)
      · by_cases hc : (shutdownSleepKill "ngrok" n).2 = true
        · rw [if_pos hc] at hifpart
          simp at hifpart
        · rw [if_neg hc] at hifpart
          exact sigKill_shutdownSleepKill_cond "dev_server" d hifpart
  · intro ng dv nm
    have hev := shutdownNss_eventsEq ng dv
    constructor <;> intro hmem <;> rw [hev] at hmem <;>
      rcases List.mem_append.mp hmem with ha | hifpart
    · rcases mem_shutdownTermOnly _ _ _ ha with h | h <;> exact Event.noConfusion h
    · by_cases hc : (shutdownTermOnly "ngrok" ng).2 = true
      · rw [if_pos hc] at hifpart
        simp at hifpart
      · rw [if_neg hc] at hifpart
        rcases mem_shutdownTermOnly _ _ _ hifpart with h | h <;> exact Event.noConfusion h
    · rcases mem_shutdownTermOnly _ _ _ ha with h | h <;> exact Event.noConfusion h
    · by_cases hc : (shutdownTermOnly "ngrok" ng).2 = true
      · rw [if_pos hc] at hifpart
        simp at hifpart
      · rw [if_neg hc] at hifpart
        rcases mem_shutdownTermOnly _ _ _ hifpart with h | h <;> exact Event.noConfusion h

/-- C3 witness: in a concrete scripts shutdown where ngrok is alive and does
not exit within its grace sleep, a kill signal for ngrok is in the trace, and
the theorem instance confirms it was delivered only because ngrok was still
alive with its grace period exceeded. -/
theorem c3_witness :
    (ProcEnv.mk true ProcState.running false false).st = ProcState.running ∧
    (ProcEnv.mk true ProcState.running false false).exitsInGrace = false :=
  (c3_forced_kill_once_and_only_after_grace.1
    (ProcEnv.mk true ProcState.running true false)
    (ProcEnv.mk true ProcState.running false false)
    (ProcEnv.mk true ProcState.running true false)).2.2.1 (by decide)

/-- C7 counterexample: in a concrete scripts shutdown where the ngrok
terminate call raises an OS error, the error escapes the teardown and the
dev server is never visited, so the claim that a per-process termination
error does not prevent proceeding to the remaining processes is false of
this program at this input. -/
theorem c7_counterexample :
    (shutdownScripts (ProcEnv.mk true ProcState.running true false)
       (ProcEnv.mk true ProcState.running false true)
       (ProcEnv.mk true ProcState.running false false)).2 = some "ngrok" ∧
    Event.termCall "dev_server" ∉
      (shutdownScripts (ProcEnv.mk true ProcState.running true false)
         (ProcEnv.mk true ProcState.running false true)
         (ProcEnv.mk true ProcState.running false false)).1 := by
  decide

/-- C7 amended: shutdown visits the tracked processes sequentially in exactly
the reverse of declaration order in both variants, and an error terminating
the settlement worker is caught so the coordinator proceeds; but the ngrok
and dev-server terminate calls are unguarded, so an error raised there
escapes and aborts the remainder of the teardown (likewise for ngrok in the
nssports variant). -/
theorem c7_reverse_order_and_partial_isolation :
    (∀ s n d : ProcEnv, s.tracked = true → n.tracked = true → d.tracked = true →
       n.termRaises = false → d.termRaises = false →
       ((shutdownScripts s n d).1.filter isTermCall) =
         [Event.termCall "settlement", Event.termCall "ngrok", Event.termCall "dev_server"]) ∧
    (∀ s n d : ProcEnv, n.termRaises = false → d.termRaises = false →
       (shutdownScripts s n d).2 = none ∧
       (s.tracked = true → Event.termCall "settlement" ∈ (shutdownScripts s n d).1)) ∧
    (∀ s n d : ProcEnv, n.tracked = true → n.termRaises = true →
       (shutdownScripts s n d).2 = some "ngrok" ∧
       Event.termCall "dev_server" ∉ (shutdownScripts s n d).1) ∧
    (∀ ng dv : ProcEnv, ng.tracked = true → dv.tracked = true →
       ng.termRaises = false → dv.termRaises = false →
       ((shutdownNss ng dv).1.filter isTermCall) =
         [Event.termCall "ngrok", Event.termCall "dev_server"]) ∧
    (∀ ng dv : ProcEnv, ng.tracked = true → ng.termRaises = true →
       (shutdownNss ng dv).2 = some "ngrok" ∧
       Event.termCall "dev_server" ∉ (shutdownNss ng dv).1) := by
  refine ⟨?_, ?_, ?_, ?_, ?_⟩
  · intro s n d hts htn htd hrn hrd
    have hc : (shutdownSleepKill "ngrok" n).2 = false := shutdownSleepKill_snd _ _ hrn
    rw [shutdownScripts_eventsEq, if_neg (by simp [hc])]
    rw [List.filter_append, List.filter_append]
    rw [filter_termCall_shutdownSettlement s hts,
        filter_termCall_shutdownSleepKill "ngrok" n htn,
        filter_termCall_shutdownSleepKill "dev_server" d htd]
    rfl
  · intro s n d hrn hrd
    have hcn : (shutdownSleepKill "ngrok" n).2 = false := shutdownSleepKill_snd _ _ hrn
    have hcd : (shutdownSleepKill "dev_server" d).2 = false := shutdownSleepKill_snd _ _ hrd
    constructor
    · rw [shutdownScripts_escEq]
      simp [hcn, hcd]
    · intro hts
      rw [shutdownScripts_eventsEq]
      exact List.mem_append_left _
        (List.mem_append_left _ (termCall_mem_shutdownSettlement s hts))
  · intro s n d htn hrn
    have hN := shutdownSleepKill_raises "ngrok" n htn hrn
    constructor
    · rw [shutdownScripts_escEq, hN]
      simp
    · rw [shutdownScripts_eventsEq, hN]
      intro hmem
      simp only [List.mem_append] at hmem
      rcases hmem with (hmem | hmem) | hmem
      · rcases mem_shutdownSettlement _ _ hmem with h | h | h | h
        · exact absurd (Event.termCall.inj h) (by decide)
        all_goals exact Event.noConfusion h
      · simp at hmem
      · simp at hmem
  · intro ng dv htn htd hrn hrd
    have hc : (shutdownTermOnly "ngrok" ng).2 = false := shutdownTermOnly_snd _ _ hrn
    rw [shutdownNss_eventsEq, if_neg (by simp [hc])]
    rw [List.filter_append]
    rw [filter_termCall_shutdownTermOnly "ngrok" ng htn,
        filter_termCall_shutdownTermOnly "dev_server" dv htd]
    rfl
  · intro ng dv htn hrn
    have hN := shutdownTermOnly_raises "ngrok" ng htn hrn
    constructor
    · rw [shutdownNss_escEq, hN]
      simp
    · rw [shutdownNss_eventsEq, hN]
      intro hmem
      simp at hmem

/-- C7 witness: a concrete scripts shutdown with all three processes tracked
and no termination errors visits them in exactly reverse declaration order. -/
theorem c7_witness :
    ((shutdownScripts (ProcEnv.mk true ProcState.running false false)
        (ProcEnv.mk true ProcState.exited false false)
        (ProcEnv.mk true ProcState.running true false)).1.filter isTermCall) =
      [Event.termCall "settlement", Event.termCall "ngrok", Event.termCall "dev_server"] :=
  c7_reverse_order_and_partial_isolation.1
    (ProcEnv.mk true ProcState.running false false)
    (ProcEnv.mk true ProcState.exited false false)
    (ProcEnv.mk true ProcState.running true false) rfl rfl rfl rfl rfl

/-- C8: when tunnel verification fails, the scripts supervisor still spawns
the settlement worker, still prints the overall readiness banner, and emits
the troubleshooting guidance: the failure never aborts the sequence. -/
theorem c8_tunnel_failure_is_advisory :
    ∀ e : ScriptsEnv, e.healthOk = true → e.tunnelOk = false →
      Event.spawn "settlement" ∈ (runScripts e).1 ∧
      Event.readyBanner ∈ (runScripts e).1 ∧
      Event.troubleshoot ∈ (runScripts e).1 := by
  intro e h1 h2
  rcases e with ⟨ho, tu, wa, it, s, n, d⟩
  simp only at h1 h2
  subst h1
  subst h2
  cases it <;> refine ⟨?_, ?_, ?_⟩ <;> simp [runScripts, List.mem_append]

/-- C8 witness: a concrete run with a failed tunnel verification spawns the
settlement worker, reports readiness and emits the troubleshooting text. -/
theorem c8_witness :
    Event.spawn "settlement" ∈
      (runScripts (ScriptsEnv.mk true false true false
        (ProcEnv.mk true ProcState.running true false)
        (ProcEnv.mk true ProcState.running true false)
        (ProcEnv.mk true ProcState.running true false))).1 ∧
    Event.readyBanner ∈
      (runScripts (ScriptsEnv.mk true false true false
        (ProcEnv.mk true ProcState.running true false)
        (ProcEnv.mk true ProcState.running true false)
        (ProcEnv.mk true ProcState.running true false))).1 ∧
    Event.troubleshoot ∈
      (runScripts (ScriptsEnv.mk true false true false
        (ProcEnv.mk true ProcState.running true false)
        (ProcEnv.mk true ProcState.running true false)
        (ProcEnv.mk true ProcState.running true false))).1 :=
  c8_tunnel_failure_is_advisory
    (ScriptsEnv.mk true false true false
      (ProcEnv.mk true ProcState.running true false)
      (ProcEnv.mk true ProcState.running true false)
      (ProcEnv.mk true ProcState.running true false)) rfl rfl

/-- C9: terminating a process whose OS process has already completed delivers
no signal and raises no error (the handle is merely reaped), and running the
whole shutdown sequence again once every process has exited delivers no
signal to any process and lets no error escape, in both variants:
double-termination is a no-op at the process level. -/
theorem c9_double_termination_noop :
    (∀ st : ProcState, st ≠ ProcState.running →
       (popenSignal st).2 = false ∧ (popenSignal st).1 = ProcState.reaped) ∧
    (∀ s n d : ProcEnv,
       s.st ≠ ProcState.running → n.st ≠ ProcState.running → d.st ≠ ProcState.running →
       s.termRaises = false → n.termRaises = false → d.termRaises = false →
       (shutdownScripts s n d).2 = none ∧
       ∀ nm, Event.sigTerm nm ∉ (shutdownScripts s n d).1 ∧
             Event.sigKill nm ∉ (shutdownScripts s n d).1) ∧
    (∀ ng dv : ProcEnv,
       ng.st ≠ ProcState.running → dv.st ≠ ProcState.running →
       ng.termRaises = false → dv.termRaises = false →
       (shutdownNss ng dv).2 = none ∧
       ∀ nm, Event.sigTerm nm ∉ (shutdownNss ng dv).1 ∧
             Event.sigKill nm ∉ (shutdownNss ng dv).1) := by
  refine ⟨?_, ?_, ?_⟩
  · intro st h
    cases st
    · exact absurd rfl h
    · exact ⟨rfl, rfl⟩
    · exact ⟨rfl, rfl⟩
  · intro s n d hs hn hd hrs hrn hrd
    have Hs := shutdownSettlement_dead s hs hrs
    have Hn := shutdownSleepKill_dead "ngrok" n hn hrn
    have Hd := shutdownSleepKill_dead "dev_server" d hd hrd
    constructor
    · rw [shutdownScripts_escEq, Hn, Hd]
      simp
    · intro nm
      have hev := shutdownScripts_eventsEq s n d
      rw [Hs, Hn, Hd] at hev
      constructor <;> intro hmem <;> rw [hev] at hmem <;>
        by_cases ht1 : s.tracked = true <;> by_cases ht2 : n.tracked = true <;>
          by_cases ht3 : d.tracked = true <;> simp_all
  · intro ng dv hn hd hrn hrd
    have Hn := shutdownTermOnly_dead "ngrok" ng hn hrn
    have Hd := shutdownTermOnly_dead "dev_server" dv hd hrd
    constructor
    · rw [shutdownNss_escEq, Hn, Hd]
      simp
    · intro nm
      have hev := shutdownNss_eventsEq ng dv
      rw [Hn, Hd] at hev
      constructor <;> intro hmem <;> rw [hev] at hmem <;>
        by_cases ht1 : ng.tracked = true <;> by_cases ht2 : dv.tracked = true <;> simp_all

/-- C9 witness: terminating an exited handle delivers nothing and reaps it,
and a concrete second shutdown pass over already-exited processes lets no
error escape. -/
theorem c9_witness :
    ((popenSignal ProcState.exited).2 = false ∧
     (popenSignal ProcState.exited).1 = ProcState.reaped) ∧
    (shutdownScripts (ProcEnv.mk true ProcState.reaped false false)
      (ProcEnv.mk true ProcState.exited false false)
      (ProcEnv.mk true ProcState.exited false false)).2 = none :=
  ⟨c9_double_termination_noop.1 ProcState.exited (by decide),
   (c9_double_termination_noop.2.1
      (ProcEnv.mk true ProcState.reaped false false)
      (ProcEnv.mk true ProcState.exited false false)
      (ProcEnv.mk true ProcState.exited false false)
      (by decide) (by decide) (by decide) rfl rfl rfl).1⟩
